import Mathlib

/-!
Verification of the quiz-ai backend (FastAPI service in `backend/main.py`
and the duplicated variant `bhackend/main.py`).

Shallow embedding conventions:
* Python strings are `String`, lists are `List`, ints are `Int`.
* `random.shuffle(indices)` draws a random permutation in place; its result
  is passed in as an explicit `indices : List Nat` parameter, with the
  hypothesis that it is a permutation of `range (len options)` (which
  `random.shuffle` guarantees).  CPython implements `random.shuffle` as a
  Fisher-Yates loop; that algorithm is embedded separately as `pyShuffle`
  with the random draws as an explicit oracle parameter.
* Python list indexing `l[i]` (which raises `IndexError` out of range) is
  `List.getD l i ""`; under the permutation hypotheses every access is in
  range, so the default is never produced.  `list.index(x)` (which raises
  `ValueError` when absent) is `List.indexOf`; membership is established
  from the hypotheses wherever it is used.
* `raise ValueError(msg)` in the validation pipeline is `Except.error msg`
  with the exact f-string message text.
-/

namespace QuizAI

/-- Difficulty corresponds to the `Literal["easy", "medium", "hard"]` type alias. -/
inductive Difficulty where
  | easy
  | medium
  | hard
deriving DecidableEq, Repr

/-- QuizQuestion mirrors the pydantic model `QuizQuestion` of `backend/main.py`
(field order and names as in the source).  The pydantic field constraints are
captured by `QuizQuestion.valid` below rather than baked into the structure,
so that the defensive code paths of `shuffle_question_options` remain
expressible. -/
structure QuizQuestion where
  question : String
  options : List String
  answer_index : Int
  explanation : String
deriving DecidableEq, Repr

/-- QuizResponse mirrors the pydantic model `QuizResponse`. -/
structure QuizResponse where
  topic : String
  difficulty : Difficulty
  questions : List QuizQuestion
deriving DecidableEq, Repr

/-- Validity: the conjunction of the pydantic field constraints declared on
`QuizQuestion` (`question: min_length=5`, `options: min_length=4, max_length=4`,
`answer_index: conint(ge=0, le=3)`, `explanation: min_length=3`). -/
def QuizQuestion.valid (q : QuizQuestion) : Prop :=
  5 ≤ q.question.length ∧ q.options.length = 4 ∧
    0 ≤ q.answer_index ∧ q.answer_index ≤ 3 ∧ 3 ≤ q.explanation.length

instance (q : QuizQuestion) : Decidable q.valid := by
  unfold QuizQuestion.valid
  infer_instance

/-- The `target_index` local of `shuffle_question_options`:
`question.answer_index if 0 <= question.answer_index < len(question.options) else 0`. -/
def target_index (q : QuizQuestion) : Nat :=
  if 0 ≤ q.answer_index ∧ q.answer_index < (q.options.length : Int) then
    q.answer_index.toNat
  else 0

/-- Embedding of `shuffle_question_options` from `backend/main.py`.  The
source first builds `indices = list(range(len(question.options)))` and calls
`random.shuffle(indices)`; the shuffled list is the `indices` parameter here.
Then `reordered_options = [question.options[i] for i in indices]` and
`new_answer_index = indices.index(target_index)`, and a fresh `QuizQuestion`
is constructed. -/
def shuffle_question_options (indices : List Nat) (q : QuizQuestion) : QuizQuestion :=
  { question := q.question
    options := indices.map (fun i => q.options.getD i "")
    answer_index := (List.indexOf (target_index q) indices : Int)
    explanation := q.explanation }

/-- Convenience accessor: the option string the question marks as correct
(`q.options[q.answer_index]`, total-ized with `getD`). -/
def QuizQuestion.correctOption (q : QuizQuestion) : String :=
  q.options.getD q.answer_index.toNat ""

/-! ### Helper lemmas about the shuffler -/

/-- Mapping positional lookup over `range (length l)` reproduces the list. -/
lemma map_getD_range (l : List String) :
    (List.range l.length).map (fun i => l.getD i "") = l := by
  apply List.ext_getElem
  · simp
  · intro i h1 h2
    rw [List.getElem_map, List.getElem_range]
    exact List.getD_eq_getElem l "" h2

/-- For a validated question the defensive clamp is the identity:
`target_index` is the original `answer_index`. -/
lemma target_index_of_valid (q : QuizQuestion) (hq : q.valid) :
    target_index q = q.answer_index.toNat := by
  obtain ⟨-, hlen, h0, h3, -⟩ := hq
  rw [target_index, if_pos]
  exact ⟨h0, by rw [hlen]; omega⟩

/-- When the options list is nonempty, `target_index` is always in range. -/
lemma target_index_lt (q : QuizQuestion) (hpos : 0 < q.options.length) :
    target_index q < q.options.length := by
  rw [target_index]
  split
  · next h => omega
  · exact hpos

/-- The reordered options list is a permutation of the original one, for any
`indices` that is a permutation of `range (len options)`. -/
lemma shuffle_options_perm (indices : List Nat) (q : QuizQuestion)
    (hperm : List.Perm indices (List.range q.options.length)) :
    List.Perm (shuffle_question_options indices q).options q.options := by
  have h1 : List.Perm (indices.map (fun i => q.options.getD i ""))
      ((List.range q.options.length).map (fun i => q.options.getD i "")) :=
    hperm.map _
  rw [map_getD_range] at h1
  exact h1

/-- The string at the new `answer_index` is the string at `target_index` in
the original options, for any permutation `indices`. -/
lemma shuffle_correctOption (indices : List Nat) (q : QuizQuestion)
    (hperm : List.Perm indices (List.range q.options.length))
    (hpos : 0 < q.options.length) :
    (shuffle_question_options indices q).correctOption =
      q.options.getD (target_index q) "" := by
  have hmem : target_index q ∈ indices := by
    rw [hperm.mem_iff, List.mem_range]
    exact target_index_lt q hpos
  have hidx : List.indexOf (target_index q) indices < indices.length :=
    List.indexOf_lt_length.mpr hmem
  have hlen : indices.length = q.options.length := by
    simpa using hperm.length_eq
  rw [shuffle_question_options, QuizQuestion.correctOption]
  simp only [Int.toNat_ofNat]
  rw [List.getD_eq_getElem _ "" (by simpa using hidx), List.getElem_map,
    List.getElem_indexOf hidx]

/-- The length of the reordered options equals the original length. -/
lemma shuffle_options_length (indices : List Nat) (q : QuizQuestion)
    (hperm : List.Perm indices (List.range q.options.length)) :
    (shuffle_question_options indices q).options.length = q.options.length :=
  (shuffle_options_perm indices q hperm).length_eq

/-! ### Claims about the shuffler -/

/-- C1: for every pydantic-validated QuizQuestion and every permutation drawn
by `random.shuffle`, `shuffle_question_options` returns a question whose
options are a permutation (same multiset) of the input options, and the string
at the returned `answer_index` is the string that was at the input
`answer_index`. -/
theorem shuffle_preserves_option_multiset_and_correct_content
    (indices : List Nat) (q : QuizQuestion) (hq : q.valid)
    (hperm : List.Perm indices (List.range q.options.length)) :
    List.Perm (shuffle_question_options indices q).options q.options ∧
      (shuffle_question_options indices q).correctOption = q.correctOption := by
  refine ⟨shuffle_options_perm indices q hperm, ?_⟩
  have hpos : 0 < q.options.length := by
    obtain ⟨-, hlen, -⟩ := hq
    omega
  rw [shuffle_correctOption indices q hperm hpos, target_index_of_valid q hq,
    QuizQuestion.correctOption]

/-- Witness for C1 at a concrete validated question and permutation. -/
theorem shuffle_preserves_option_multiset_and_correct_content_witness :
    QuizQuestion.valid
        { question := "What is two plus two?"
          options := ["one", "two", "three", "four"]
          answer_index := 3
          explanation := "Adding." } ∧
      List.Perm [2, 0, 3, 1] (List.range 4) ∧
      (List.Perm
          (shuffle_question_options [2, 0, 3, 1]
            { question := "What is two plus two?"
              options := ["one", "two", "three", "four"]
              answer_index := 3
              explanation := "Adding." }).options
          ["one", "two", "three", "four"] ∧
        (shuffle_question_options [2, 0, 3, 1]
            { question := "What is two plus two?"
              options := ["one", "two", "three", "four"]
              answer_index := 3
              explanation := "Adding." }).correctOption =
          QuizQuestion.correctOption
            { question := "What is two plus two?"
              options := ["one", "two", "three", "four"]
              answer_index := 3
              explanation := "Adding." }) :=
  ⟨by decide, by decide,
    shuffle_preserves_option_multiset_and_correct_content [2, 0, 3, 1] _
      (by decide) (by decide)⟩

/-- C2: for every pydantic-validated QuizQuestion, the question returned by
`shuffle_question_options` has `answer_index` in `[0, 3]`, a valid index into
its 4-element options list. -/
theorem shuffle_answer_index_valid
    (indices : List Nat) (q : QuizQuestion) (hq : q.valid)
    (hperm : List.Perm indices (List.range q.options.length)) :
    0 ≤ (shuffle_question_options indices q).answer_index ∧
      (shuffle_question_options indices q).answer_index ≤ 3 ∧
      (shuffle_question_options indices q).options.length = 4 := by
  have hlen4 : q.options.length = 4 := hq.2.1
  have hpos : 0 < q.options.length := by omega
  have hmem : target_index q ∈ indices := by
    rw [hperm.mem_iff, List.mem_range]
    exact target_index_lt q hpos
  have hidx : List.indexOf (target_index q) indices < indices.length :=
    List.indexOf_lt_length.mpr hmem
  have hilen : indices.length = 4 := by
    have := hperm.length_eq
    simpa [hlen4] using this
  refine ⟨?_, ?_, ?_⟩
  · exact Int.ofNat_nonneg _
  · rw [shuffle_question_options]
    simp only
    omega
  · rw [shuffle_options_length indices q hperm, hlen4]

/-- Witness for C2 at a concrete validated question and permutation. -/
theorem shuffle_answer_index_valid_witness :
    QuizQuestion.valid
        { question := "Pick the largest number."
          options := ["1", "2", "3", "4"]
          answer_index := 0
          explanation := "Size." } ∧
      List.Perm [3, 1, 0, 2] (List.range 4) ∧
      (0 ≤ (shuffle_question_options [3, 1, 0, 2]
          { question := "Pick the largest number."
            options := ["1", "2", "3", "4"]
            answer_index := 0
            explanation := "Size." }).answer_index ∧
        (shuffle_question_options [3, 1, 0, 2]
          { question := "Pick the largest number."
            options := ["1", "2", "3", "4"]
            answer_index := 0
            explanation := "Size." }).answer_index ≤ 3 ∧
        (shuffle_question_options [3, 1, 0, 2]
          { question := "Pick the largest number."
            options := ["1", "2", "3", "4"]
            answer_index := 0
            explanation := "Size." }).options.length = 4) :=
  ⟨by decide, by decide,
    shuffle_answer_index_valid [3, 1, 0, 2] _ (by decide) (by decide)⟩

/-- C6: if the input `answer_index` is outside `[0, len(options)-1]`, the
shuffler does not fail but treats index 0 as correct (the shuffled result
points at the string originally at position 0); if it is in range it is used
unchanged.  The function is total in the embedding, matching the source,
which has no failing path. -/
theorem shuffle_defensive_clamp
    (indices : List Nat) (q : QuizQuestion)
    (hperm : List.Perm indices (List.range q.options.length))
    (hpos : 0 < q.options.length) :
    (¬ (0 ≤ q.answer_index ∧ q.answer_index < (q.options.length : Int)) →
        (shuffle_question_options indices q).correctOption = q.options.getD 0 "") ∧
      ((0 ≤ q.answer_index ∧ q.answer_index < (q.options.length : Int)) →
        target_index q = q.answer_index.toNat ∧
          (shuffle_question_options indices q).correctOption =
            q.options.getD q.answer_index.toNat "") := by
  constructor
  · intro hout
    rw [shuffle_correctOption indices q hperm hpos, target_index, if_neg hout]
  · intro hin
    have ht : target_index q = q.answer_index.toNat := by
      rw [target_index, if_pos hin]
    exact ⟨ht, by rw [shuffle_correctOption indices q hperm hpos, ht]⟩

/-- Witness for C6: a question whose `answer_index` 7 is out of range is
shuffled with the option originally at position 0 treated as correct. -/
theorem shuffle_defensive_clamp_witness :
    (¬ (0 ≤ (7 : Int) ∧ (7 : Int) <
        ((["red", "green", "blue", "cyan"] : List String).length : Int))) ∧
      (shuffle_question_options [1, 2, 3, 0]
          { question := "Pick one color now."
            options := ["red", "green", "blue", "cyan"]
            answer_index := 7
            explanation := "Color." }).correctOption =
        (["red", "green", "blue", "cyan"] : List String).getD 0 "" :=
  ⟨by decide,
    (shuffle_defensive_clamp [1, 2, 3, 0]
        { question := "Pick one color now."
          options := ["red", "green", "blue", "cyan"]
          answer_index := 7
          explanation := "Color." } (by decide) (by decide)).1 (by decide)⟩

/-- C7: the shuffler never mutates its input and returns a freshly
constructed question: in the source a new list comprehension and a new
`QuizQuestion(...)` are built from reads of `question` only, which the pure
embedding reflects (the input value is unchanged by construction), and the
`question` and `explanation` fields of the result equal those of the
input. -/
theorem shuffle_no_mutation_frame (indices : List Nat) (q : QuizQuestion) :
    (shuffle_question_options indices q).question = q.question ∧
      (shuffle_question_options indices q).explanation = q.explanation ∧
      shuffle_question_options indices q =
        { question := q.question
          options := indices.map (fun i => q.options.getD i "")
          answer_index := (List.indexOf (target_index q) indices : Int)
          explanation := q.explanation } :=
  ⟨rfl, rfl, rfl⟩

/-- C10: for every QuizQuestion that passed pydantic validation, the
defensive out-of-range branch of `shuffle_question_options` is unreachable:
the guard `0 <= answer_index < len(options)` holds and `target_index` equals
the original `answer_index`. -/
theorem validated_defensive_branch_unreachable (q : QuizQuestion)
    (hq : q.valid) :
    (0 ≤ q.answer_index ∧ q.answer_index < (q.options.length : Int)) ∧
      target_index q = q.answer_index.toNat := by
  obtain ⟨-, hlen, h0, h3, -⟩ := hq
  have hin : 0 ≤ q.answer_index ∧ q.answer_index < (q.options.length : Int) := by
    constructor
    · exact h0
    · rw [hlen]
      omega
  exact ⟨hin, by rw [target_index, if_pos hin]⟩

/-- Witness for C10 at a concrete validated question. -/
theorem validated_defensive_branch_unreachable_witness :
    QuizQuestion.valid
        { question := "Which planet is third?"
          options := ["Mars", "Earth", "Venus", "Pluto"]
          answer_index := 1
          explanation := "Orbit order." } ∧
      ((0 ≤ (1 : Int) ∧ (1 : Int) <
          ((["Mars", "Earth", "Venus", "Pluto"] : List String).length : Int)) ∧
        target_index
            { question := "Which planet is third?"
              options := ["Mars", "Earth", "Venus", "Pluto"]
              answer_index := 1
              explanation := "Orbit order." } = (1 : Int).toNat) :=
  ⟨by decide,
    validated_defensive_branch_unreachable
      { question := "Which planet is third?"
        options := ["Mars", "Earth", "Venus", "Pluto"]
        answer_index := 1
        explanation := "Orbit order." } (by decide)⟩

/-! ### The post-validation pipeline of `call_openai_quiz`

Both variants call OpenAI, run `json.loads` and `QuizResponse.model_validate`
(modelled separately below), and then run the pure tail of the pipeline on
the validated `QuizResponse`: the count check, the per-question option-count
re-check, and (in `backend/main.py` only) the shuffle.  That pure tail is
embedded here, with the random permutation drawn inside each
`shuffle_question_options` call passed in as the `perms` parameter (one
permutation per question). -/

/-- Default used to total-ize positional access into question lists. -/
def defaultQuestion : QuizQuestion :=
  { question := "", options := [], answer_index := 0, explanation := "" }

/-- The `for i, q in enumerate(quiz.questions)` loop of both variants raises
at the first question whose option count is not 4; this returns the 0-based
position and the option count of that first offending question, `none` when
all questions pass. -/
def firstOptionCountViolation : Nat → List QuizQuestion → Option (Nat × Nat)
  | _, [] => none
  | i, q :: qs =>
    if q.options.length ≠ 4 then some (i, q.options.length)
    else firstOptionCountViolation (i + 1) qs

/-- Embedding of the pure tail of `call_openai_quiz` in `backend/main.py`
(lines 213-226): count check, option-count re-check with the exact f-string
messages, then every question passes through `shuffle_question_options` and a
fresh `QuizResponse` is returned. -/
def call_openai_quiz_validated (perms : List (List Nat)) (count : Nat)
    (quiz : QuizResponse) : Except String QuizResponse :=
  if quiz.questions.length ≠ count then
    Except.error ("Expected " ++ toString count ++ " questions but got " ++
      toString quiz.questions.length ++ ".")
  else
    match firstOptionCountViolation 0 quiz.questions with
    | some (i, got) =>
      Except.error ("Question " ++ toString (i + 1) ++ " has " ++
        toString got ++ " options (expected 4).")
    | none =>
      Except.ok
        { topic := quiz.topic
          difficulty := quiz.difficulty
          questions := List.zipWith shuffle_question_options perms quiz.questions }

/-- Embedding of the pure tail of `call_openai_quiz` in `bhackend/main.py`
(lines 253-261): the same count and option-count checks, but the validated
quiz is returned as is — this variant contains no shuffler and consumes no
randomness. -/
def bhackend_call_openai_quiz_validated (count : Nat)
    (quiz : QuizResponse) : Except String QuizResponse :=
  if quiz.questions.length ≠ count then
    Except.error ("Expected " ++ toString count ++ " questions but got " ++
      toString quiz.questions.length ++ ".")
  else
    match firstOptionCountViolation 0 quiz.questions with
    | some (i, got) =>
      Except.error ("Question " ++ toString (i + 1) ++ " has " ++
        toString got ++ " options (expected 4).")
    | none => Except.ok quiz

/-- Sample validated question used by concrete witnesses. -/
def sampleQuestion : QuizQuestion :=
  { question := "Which Greek letter is listed first?"
    options := ["alpha", "beta", "gamma", "delta"]
    answer_index := 2
    explanation := "It is listed first." }

/-- Sample validated one-question response used by concrete witnesses. -/
def sampleQuiz : QuizResponse :=
  { topic := "letters", difficulty := Difficulty.easy, questions := [sampleQuestion] }

/-- C4 (counterexample to C3): the `bhackend/main.py` validator succeeds on a
well-formed one-question response and returns the validated response itself —
the question comes back un-shuffled even though `[1,0,2,3]` is a legal
`random.shuffle` draw under which the Shuffler would have produced a
different question.  This refutes the claim that, whenever `call_openai_quiz`
succeeds, no validated question is returned un-shuffled: the `bhackend`
variant returns every validated question un-shuffled. -/
theorem bhackend_returns_unshuffled_counterexample :
    bhackend_call_openai_quiz_validated 1 sampleQuiz = Except.ok sampleQuiz ∧
      shuffle_question_options [1, 0, 2, 3] sampleQuestion ≠ sampleQuestion ∧
      List.Perm [1, 0, 2, 3] (List.range sampleQuestion.options.length) :=
  ⟨rfl, by decide, by decide⟩

/-- C3 (amended): in `backend/main.py`, whenever `call_openai_quiz` succeeds,
the questions of the returned QuizResponse are exactly
`shuffle_question_options` applied, with the random draws of that call, to the
corresponding validated questions; the `bhackend/main.py` variant instead
returns the validated response unchanged, without shuffling. -/
theorem shuffler_applied_on_success
    (perms : List (List Nat)) (count : Nat) (quiz out out2 : QuizResponse)
    (hok : call_openai_quiz_validated perms count quiz = Except.ok out)
    (hok2 : bhackend_call_openai_quiz_validated count quiz = Except.ok out2) :
    out.questions = List.zipWith shuffle_question_options perms quiz.questions ∧
      out2 = quiz := by
  unfold call_openai_quiz_validated at hok
  unfold bhackend_call_openai_quiz_validated at hok2
  by_cases h : quiz.questions.length ≠ count
  · rw [if_pos h] at hok
    exact absurd hok (by simp)
  · rw [if_neg h] at hok
    rw [if_neg h] at hok2
    cases hfv : firstOptionCountViolation 0 quiz.questions with
    | some p =>
      rw [hfv] at hok
      obtain ⟨i, got⟩ := p
      exact absurd hok (by simp)
    | none =>
      rw [hfv] at hok
      rw [hfv] at hok2
      cases hok
      cases hok2
      exact ⟨rfl, rfl⟩

/-- Witness for the amended C3 at a concrete response and draw. -/
theorem shuffler_applied_on_success_witness :
    call_openai_quiz_validated [[1, 0, 2, 3]] 1 sampleQuiz =
        Except.ok
          { topic := "letters"
            difficulty := Difficulty.easy
            questions := [shuffle_question_options [1, 0, 2, 3] sampleQuestion] } ∧
      bhackend_call_openai_quiz_validated 1 sampleQuiz = Except.ok sampleQuiz ∧
      ({ topic := "letters"
         difficulty := Difficulty.easy
         questions :=
           [shuffle_question_options [1, 0, 2, 3] sampleQuestion] :
          QuizResponse }).questions =
          List.zipWith shuffle_question_options [[1, 0, 2, 3]]
            sampleQuiz.questions ∧
      sampleQuiz = sampleQuiz :=
  ⟨rfl, rfl,
    shuffler_applied_on_success [[1, 0, 2, 3]] 1 sampleQuiz
      { topic := "letters"
        difficulty := Difficulty.easy
        questions := [shuffle_question_options [1, 0, 2, 3] sampleQuestion] }
      sampleQuiz rfl rfl⟩

/-- C4: when the schema-validated quiz has a question count different from
the requested one, both variants fail with the CountMismatch message naming
the expected and the actual count, and no QuizResponse is returned. -/
theorem count_mismatch_fails
    (perms : List (List Nat)) (count : Nat) (quiz : QuizResponse)
    (h : quiz.questions.length ≠ count) :
    call_openai_quiz_validated perms count quiz =
        Except.error ("Expected " ++ toString count ++ " questions but got " ++
          toString quiz.questions.length ++ ".") ∧
      bhackend_call_openai_quiz_validated count quiz =
        Except.error ("Expected " ++ toString count ++ " questions but got " ++
          toString quiz.questions.length ++ ".") ∧
      (∀ r, call_openai_quiz_validated perms count quiz ≠ Except.ok r) ∧
      (∀ r, bhackend_call_openai_quiz_validated count quiz ≠ Except.ok r) := by
  have h1 : call_openai_quiz_validated perms count quiz =
      Except.error ("Expected " ++ toString count ++ " questions but got " ++
        toString quiz.questions.length ++ ".") := by
    unfold call_openai_quiz_validated
    rw [if_pos h]
  have h2 : bhackend_call_openai_quiz_validated count quiz =
      Except.error ("Expected " ++ toString count ++ " questions but got " ++
        toString quiz.questions.length ++ ".") := by
    unfold bhackend_call_openai_quiz_validated
    rw [if_pos h]
  refine ⟨h1, h2, ?_, ?_⟩
  · intro r
    rw [h1]
    simp
  · intro r
    rw [h2]
    simp

/-- Witness for C4: requesting 5 questions but validating a 1-question
response yields the CountMismatch message naming 5 and 1. -/
theorem count_mismatch_fails_witness :
    sampleQuiz.questions.length ≠ 5 ∧
      call_openai_quiz_validated [] 5 sampleQuiz =
        Except.error "Expected 5 questions but got 1." :=
  ⟨by decide,
    ((count_mismatch_fails [] 5 sampleQuiz (by decide)).1).trans rfl⟩

/-- The enumerate loop reports the first violation: if every question before
position `i` has 4 options and the question at `i` does not, the loop started
at counter `k` returns `some (k + i, the option count of that question)`. -/
lemma firstOptionCountViolation_eq_some (qs : List QuizQuestion) (k i : Nat)
    (hi : i < qs.length)
    (hbad : (qs.getD i defaultQuestion).options.length ≠ 4)
    (hfirst : ∀ j, j < i → (qs.getD j defaultQuestion).options.length = 4) :
    firstOptionCountViolation k qs =
      some (k + i, (qs.getD i defaultQuestion).options.length) := by
  induction qs generalizing k i with
  | nil => simp at hi
  | cons q rest ih =>
    cases i with
    | zero =>
      have hq : (q :: rest).getD 0 defaultQuestion = q := rfl
      rw [hq] at hbad ⊢
      rw [firstOptionCountViolation, if_pos hbad, Nat.add_zero]
    | succ n =>
      have hq4 : q.options.length = 4 := hfirst 0 (Nat.succ_pos n)
      rw [firstOptionCountViolation, if_neg (by simp [hq4])]
      have hstep : ∀ m, (q :: rest).getD (m + 1) defaultQuestion =
          rest.getD m defaultQuestion := fun m => rfl
      rw [hstep] at hbad
      have := ih (k + 1) n (by simpa using hi) hbad
        (fun j hj => by
          have := hfirst (j + 1) (by omega)
          rwa [hstep] at this)
      rw [this, hstep]
      congr 2
      omega

/-- C5: after schema validation and a passing count check, a question at
0-based position `i` whose option count is not 4 (and which is the first such
question, matching the order in which the enumerate loop raises) makes both
variants fail with the OptionCountMismatch message naming the question by its
1-based index `i + 1` and its actual option count. -/
theorem option_count_mismatch_fails
    (perms : List (List Nat)) (count : Nat) (quiz : QuizResponse) (i : Nat)
    (hc : quiz.questions.length = count)
    (hi : i < quiz.questions.length)
    (hbad : (quiz.questions.getD i defaultQuestion).options.length ≠ 4)
    (hfirst : ∀ j, j < i →
      (quiz.questions.getD j defaultQuestion).options.length = 4) :
    call_openai_quiz_validated perms count quiz =
        Except.error ("Question " ++ toString (i + 1) ++ " has " ++
          toString (quiz.questions.getD i defaultQuestion).options.length ++
          " options (expected 4).") ∧
      bhackend_call_openai_quiz_validated count quiz =
        Except.error ("Question " ++ toString (i + 1) ++ " has " ++
          toString (quiz.questions.getD i defaultQuestion).options.length ++
          " options (expected 4).") := by
  have hv := firstOptionCountViolation_eq_some quiz.questions 0 i hi hbad hfirst
  rw [Nat.zero_add] at hv
  constructor
  · unfold call_openai_quiz_validated
    rw [if_neg (by omega), hv]
  · unfold bhackend_call_openai_quiz_validated
    rw [if_neg (by omega), hv]

/-- Witness for C5: a 2-question response whose second question has only 3
options fails with the message naming question 2 (1-based) and count 3. -/
theorem option_count_mismatch_fails_witness :
    (({ topic := "letters"
        difficulty := Difficulty.easy
        questions :=
          [sampleQuestion,
            { question := "Which one is missing an option?"
              options := ["a", "b", "c"]
              answer_index := 0
              explanation := "Short." }] : QuizResponse }).questions.getD 1
        defaultQuestion).options.length = 3 ∧
      call_openai_quiz_validated [] 2
          { topic := "letters"
            difficulty := Difficulty.easy
            questions :=
              [sampleQuestion,
                { question := "Which one is missing an option?"
                  options := ["a", "b", "c"]
                  answer_index := 0
                  explanation := "Short." }] } =
        Except.error "Question 2 has 3 options (expected 4)." :=
  ⟨by decide,
    ((option_count_mismatch_fails [] 2
          { topic := "letters"
            difficulty := Difficulty.easy
            questions :=
              [sampleQuestion,
                { question := "Which one is missing an option?"
                  options := ["a", "b", "c"]
                  answer_index := 0
                  explanation := "Short." }] } 1 (by decide) (by decide)
          (by decide)
          (fun j hj => by
            have hj0 : j = 0 := by omega
            rw [hj0]
            decide)).1).trans rfl⟩

/-! ### Fairness of the shuffle

CPython implements `random.shuffle(x)` as the Fisher-Yates loop
`for i in reversed(range(1, len(x))): j = _randbelow(i + 1); x[i], x[j] =
x[j], x[i]`, where `_randbelow(n)` is uniform on `[0, n-1]` and the draws of
distinct iterations are independent.  The loop is embedded below with the
sequence of `_randbelow` results as an explicit oracle parameter; uniformity
of the resulting permutation is then a finite counting statement over the
`4 * 3 * 2 = 24` equally likely draw sequences. -/

/-- Modelled from the source of CPython `random.shuffle`: the simultaneous
assignment `x[i], x[j] = x[j], x[i]`. -/
def swapAt (l : List Nat) (i j : Nat) : List Nat :=
  (l.set i (l.getD j 0)).set j (l.getD i 0)

/-- Modelled from the source of CPython `random.shuffle`: the loop
`for i in reversed(range(1, len(x)))`, consuming one `_randbelow(i + 1)`
result per iteration from the head of `draws`. -/
def pyShuffleAux : List Nat → Nat → List Nat → List Nat
  | x, 0, _ => x
  | x, _ + 1, [] => x
  | x, i + 1, j :: rest => pyShuffleAux (swapAt x (i + 1) j) i rest

/-- Modelled from the source of CPython `random.shuffle`, acting on a fresh
`list(range(len(options)))` as in `shuffle_question_options`. -/
def pyShuffle (x : List Nat) (draws : List Nat) : List Nat :=
  pyShuffleAux x (x.length - 1) draws

/-- Every possible `_randbelow` draw sequence for shuffling a 4-element list:
`j ∈ [0,3]` for `i = 3`, `j ∈ [0,2]` for `i = 2`, `j ∈ [0,1]` for `i = 1`.
Each of these 24 sequences has probability `1/24` under independent uniform
draws. -/
def allDrawSeqs : List (List Nat) :=
  (List.range 4).flatMap fun j3 =>
    (List.range 3).flatMap fun j2 =>
      (List.range 2).map fun j1 => [j3, j2, j1]

/-- The 24 permutations of `[0, 1, 2, 3]`, listed explicitly; `perms4_complete`
below checks that they are pairwise distinct permutations of `[0, 1, 2, 3]`. -/
def perms4 : List (List Nat) :=
  [[0,1,2,3], [0,1,3,2], [0,2,1,3], [0,2,3,1], [0,3,1,2], [0,3,2,1],
   [1,0,2,3], [1,0,3,2], [1,2,0,3], [1,2,3,0], [1,3,0,2], [1,3,2,0],
   [2,0,1,3], [2,0,3,1], [2,1,0,3], [2,1,3,0], [2,3,0,1], [2,3,1,0],
   [3,0,1,2], [3,0,2,1], [3,1,0,2], [3,1,2,0], [3,2,0,1], [3,2,1,0]]

/-- perms4 really enumerates the whole symmetric group on `[0, 1, 2, 3]`:
24 pairwise-distinct lists, each a permutation of `[0, 1, 2, 3]`. -/
lemma perms4_complete :
    perms4.length = 24 ∧ perms4.Nodup ∧
      (perms4.all fun p => decide (List.Perm p (List.range 4))) = true := by
  refine ⟨rfl, by decide, by decide⟩

/-- C9: the shuffle used by `shuffle_question_options` is fair.  Over the 24
equally likely `_randbelow` draw sequences, (a) every draw sequence yields a
permutation of `[0,1,2,3]`, (b) each of the 24 permutations of `[0,1,2,3]`
is produced by exactly one of the 24 draw sequences — so every permutation
has probability `1/24` — and (c) for every validated question, the shuffled
question has an `answer_index` taking each value in `[0,3]` on exactly 6 of the 24
draw sequences, so it is uniformly distributed over `[0,3]`. -/
theorem shuffle_uniform_distribution (q : QuizQuestion) (hq : q.valid) :
    allDrawSeqs.length = 24 ∧
      (allDrawSeqs.all fun d =>
        decide (List.Perm (pyShuffle (List.range 4) d) (List.range 4))) = true ∧
      (perms4.all fun p =>
        (allDrawSeqs.map fun d => pyShuffle (List.range 4) d).count p == 1) = true ∧
      ((List.range 4).all fun k =>
        (allDrawSeqs.filter fun d =>
            (shuffle_question_options (pyShuffle (List.range 4) d)
                q).answer_index == (k : Int)).length == 6) = true := by
  refine ⟨rfl, by decide, by decide, ?_⟩
  have ht : target_index q = q.answer_index.toNat := target_index_of_valid q hq
  have h0 : 0 ≤ q.answer_index := hq.2.2.1
  have h3 : q.answer_index ≤ 3 := hq.2.2.2.1
  simp only [shuffle_question_options, ht]
  have hcase : q.answer_index = 0 ∨ q.answer_index = 1 ∨
      q.answer_index = 2 ∨ q.answer_index = 3 := by omega
  rcases hcase with h | h | h | h <;> rw [h] <;> decide

/-- Witness for C9 at a concrete validated question. -/
theorem shuffle_uniform_distribution_witness :
    QuizQuestion.valid sampleQuestion ∧
      (allDrawSeqs.length = 24 ∧
        (allDrawSeqs.all fun d =>
          decide (List.Perm (pyShuffle (List.range 4) d) (List.range 4))) = true ∧
        (perms4.all fun p =>
          (allDrawSeqs.map fun d => pyShuffle (List.range 4) d).count p == 1) =
            true ∧
        ((List.range 4).all fun k =>
          (allDrawSeqs.filter fun d =>
              (shuffle_question_options (pyShuffle (List.range 4) d)
                  sampleQuestion).answer_index == (k : Int)).length == 6) =
            true) :=
  ⟨by decide, shuffle_uniform_distribution sampleQuestion (by decide)⟩

/-! ### The JSON parse-and-validate stage

`call_openai_quiz` first runs `json.loads` on the model reply and then
`QuizResponse.model_validate` on the parsed value (lines 200-210 of
`backend/main.py`).  `json.loads` is the Python standard library parser: a
well-formed JSON text denotes a JSON value, embedded here as the `Json`
inductive, so the parse stage is modelled at the value level.  pydantic is a
third-party library; its behavior on this schema is fully determined by the
field declarations of `QuizQuestion` and `QuizResponse` in
`backend/main.py`, and `model_validate` is embedded below from those
declarations. -/

/-- Value form of a well-formed JSON text, as produced by `json.loads`. -/
inductive Json where
  | str (s : String)
  | num (n : Int)
  | boolVal (b : Bool)
  | arr (elems : List Json)
  | obj (fields : List (String × Json))
  | null

/-- First binding of a key in a JSON object (objects produced by
`json.loads` bind each key once). -/
def lookupField : List (String × Json) → String → Option Json
  | [], _ => none
  | (k, v) :: rest, key => if k = key then some v else lookupField rest key

/-- View a JSON array as a list of strings; `none` when some element is not
a string (pydantic rejects a non-string element of `options: List[str]`). -/
def asStringList : List Json → Option (List String)
  | [] => some []
  | j :: rest =>
    match j, asStringList rest with
    | Json.str s, some l => some (s :: l)
    | _, _ => none

/-- Parse of the `Literal["easy", "medium", "hard"]` difficulty field. -/
def Difficulty.ofString : String → Option Difficulty
  | "easy" => some Difficulty.easy
  | "medium" => some Difficulty.medium
  | "hard" => some Difficulty.hard
  | _ => none

/-- The string a difficulty value denotes. -/
def Difficulty.asString : Difficulty → String
  | Difficulty.easy => "easy"
  | Difficulty.medium => "medium"
  | Difficulty.hard => "hard"

/-- Modelled pydantic validation of one element of `questions` against the
`QuizQuestion` field declarations of `backend/main.py`: an object with a
`question` string of length at least 5, an `options` array of exactly 4
strings, an integer `answer_index` in `[0, 3]`, and an `explanation` string
of length at least 3.  Success builds the validated `QuizQuestion`; any
failure surfaces as the schema error of line 210. -/
def model_validate_question (j : Json) : Except String QuizQuestion :=
  match j with
  | Json.obj fields =>
    match lookupField fields "question", lookupField fields "options",
        lookupField fields "answer_index", lookupField fields "explanation" with
    | some (Json.str qt), some (Json.arr opts), some (Json.num ai),
        some (Json.str ex) =>
      match asStringList opts with
      | some strs =>
        if 5 ≤ qt.length ∧ strs.length = 4 ∧ 0 ≤ ai ∧ ai ≤ 3 ∧ 3 ≤ ex.length then
          Except.ok
            { question := qt, options := strs, answer_index := ai,
              explanation := ex }
        else Except.error "AI JSON did not match schema: constraint violated"
      | none => Except.error "AI JSON did not match schema: non-string option"
    | _, _, _, _ =>
      Except.error "AI JSON did not match schema: missing or mistyped field"
  | _ => Except.error "AI JSON did not match schema: question not an object"

/-- Modelled pydantic validation of the `questions` array, element by
element, propagating the first failure. -/
def model_validate_questions : List Json → Except String (List QuizQuestion)
  | [] => Except.ok []
  | j :: rest =>
    match model_validate_question j, model_validate_questions rest with
    | Except.ok q, Except.ok qs => Except.ok (q :: qs)
    | Except.error e, _ => Except.error e
    | _, Except.error e => Except.error e

/-- Modelled pydantic `QuizResponse.model_validate` against the field
declarations of `backend/main.py`: a string `topic`, a `difficulty` drawn
from the three literals, and a `questions` array of valid questions. -/
def model_validate_response (j : Json) : Except String QuizResponse :=
  match j with
  | Json.obj fields =>
    match lookupField fields "topic", lookupField fields "difficulty",
        lookupField fields "questions" with
    | some (Json.str t), some (Json.str d), some (Json.arr qs) =>
      match Difficulty.ofString d, model_validate_questions qs with
      | some diff, Except.ok qlist =>
        Except.ok { topic := t, difficulty := diff, questions := qlist }
      | none, _ =>
        Except.error "AI JSON did not match schema: unknown difficulty"
      | _, Except.error e => Except.error e
    | _, _, _ =>
      Except.error "AI JSON did not match schema: missing or mistyped field"
  | _ => Except.error "AI JSON did not match schema: not an object"

/-- Stated from the words of the specification: a question value matches the
schema when it is an object carrying a question text of at least 5
characters, exactly 4 string options, an `answer_index` in `[0, 3]` and an
explanation of at least 3 characters. -/
def matchesQuestionSchema (j : Json) : Bool :=
  match j with
  | Json.obj fields =>
    match lookupField fields "question", lookupField fields "options",
        lookupField fields "answer_index", lookupField fields "explanation" with
    | some (Json.str qt), some (Json.arr opts), some (Json.num ai),
        some (Json.str ex) =>
      match asStringList opts with
      | some strs =>
        decide (5 ≤ qt.length) && decide (strs.length = 4) && decide (0 ≤ ai) &&
          decide (ai ≤ 3) && decide (3 ≤ ex.length)
      | none => false
    | _, _, _, _ => false
  | _ => false

/-- Stated from the words of the specification: a response value matches the
schema when it is an object with a string topic, a valid difficulty literal,
and an array of questions each matching the question schema. -/
def matchesQuizResponseSchema (j : Json) : Bool :=
  match j with
  | Json.obj fields =>
    match lookupField fields "topic", lookupField fields "difficulty",
        lookupField fields "questions" with
    | some (Json.str _), some (Json.str d), some (Json.arr qs) =>
      (d == "easy" || d == "medium" || d == "hard") &&
        qs.all matchesQuestionSchema
    | _, _, _ => false
  | _ => false

/-- The topic string carried by a response value. -/
def jsonTopic (j : Json) : Option String :=
  match j with
  | Json.obj fields =>
    match lookupField fields "topic" with
    | some (Json.str t) => some t
    | _ => none
  | _ => none

/-- The difficulty string carried by a response value. -/
def jsonDifficultyName (j : Json) : Option String :=
  match j with
  | Json.obj fields =>
    match lookupField fields "difficulty" with
    | some (Json.str d) => some d
    | _ => none
  | _ => none

/-- The number of questions carried by a response value. -/
def jsonQuestionCount (j : Json) : Option Nat :=
  match j with
  | Json.obj fields =>
    match lookupField fields "questions" with
    | some (Json.arr qs) => some qs.length
    | _ => none
  | _ => none

/-- A question value matching the schema validates successfully. -/
lemma model_validate_question_ok (j : Json)
    (h : matchesQuestionSchema j = true) :
    ∃ q, model_validate_question j = Except.ok q := by
  unfold matchesQuestionSchema at h
  unfold model_validate_question
  split at h
  · next fields =>
    split at h
    · next qt opts ai ex heq1 heq2 heq3 heq4 =>
      split at h
      · next strs heq5 =>
        rw [if_pos (by simp only [Bool.and_eq_true, decide_eq_true_eq] at h; tauto)]
        exact ⟨_, rfl⟩
      · exact absurd h (by simp)
    · exact absurd h (by simp)
  · exact absurd h (by simp)

/-- A questions array whose elements all match the schema validates into a
list of the same length. -/
lemma model_validate_questions_ok (qs : List Json)
    (h : qs.all matchesQuestionSchema = true) :
    ∃ l, model_validate_questions qs = Except.ok l ∧ l.length = qs.length := by
  induction qs with
  | nil => exact ⟨[], rfl, rfl⟩
  | cons j rest ih =>
    rw [List.all_cons, Bool.and_eq_true] at h
    obtain ⟨q, hq⟩ := model_validate_question_ok j h.1
    obtain ⟨l, hl, hlen⟩ := ih h.2
    refine ⟨q :: l, ?_, by simp [hlen]⟩
    rw [model_validate_questions, hq, hl]

/-- A difficulty literal round-trips through parsing. -/
lemma ofString_asString (d : String)
    (h : (d == "easy" || d == "medium" || d == "hard") = true) :
    ∃ diff, Difficulty.ofString d = some diff ∧ Difficulty.asString diff = d := by
  have h2 : (d = "easy" ∨ d = "medium") ∨ d = "hard" := by simpa using h
  rcases h2 with (h3 | h3) | h3 <;> rw [h3]
  · exact ⟨Difficulty.easy, rfl, rfl⟩
  · exact ⟨Difficulty.medium, rfl, rfl⟩
  · exact ⟨Difficulty.hard, rfl, rfl⟩

/-- C8: round-trip — every JSON value (the `json.loads` image of a
well-formed JSON text) that matches the QuizResponse schema validates
successfully, and the resulting QuizResponse carries the same topic, the
same difficulty, and the same number of questions as the value. -/
theorem model_validate_roundtrip (j : Json)
    (h : matchesQuizResponseSchema j = true) :
    ∃ r, model_validate_response j = Except.ok r ∧
      jsonTopic j = some r.topic ∧
      jsonDifficultyName j = some r.difficulty.asString ∧
      jsonQuestionCount j = some r.questions.length := by
  unfold matchesQuizResponseSchema at h
  unfold model_validate_response jsonTopic jsonDifficultyName jsonQuestionCount
  split at h
  · next fields =>
    split at h
    · next t d qs heq1 heq2 heq3 =>
      rw [Bool.and_eq_true] at h
      obtain ⟨diff, hdiff, hback⟩ := ofString_asString d h.1
      obtain ⟨l, hl, hlen⟩ := model_validate_questions_ok qs h.2
      rw [hdiff, hl]
      refine ⟨_, rfl, ?_, ?_, ?_⟩
      · rw [heq1]
      · rw [heq2, hback]
      · rw [heq3, hlen]
    · exact absurd h (by simp)
  · exact absurd h (by simp)

/-- Concrete JSON value of a well-formed one-question quiz reply, as
`json.loads` would produce it. -/
def sampleJson : Json :=
  Json.obj
    [("topic", Json.str "letters"),
     ("difficulty", Json.str "easy"),
     ("questions", Json.arr
       [Json.obj
         [("question", Json.str "Which Greek letter is listed first?"),
          ("options", Json.arr
            [Json.str "alpha", Json.str "beta", Json.str "gamma",
             Json.str "delta"]),
          ("answer_index", Json.num 2),
          ("explanation", Json.str "It is listed first.")]])]

/-- Witness for C8 at a concrete schema-conforming JSON value. -/
theorem model_validate_roundtrip_witness :
    matchesQuizResponseSchema sampleJson = true ∧
      ∃ r, model_validate_response sampleJson = Except.ok r ∧
        jsonTopic sampleJson = some r.topic ∧
        jsonDifficultyName sampleJson = some r.difficulty.asString ∧
        jsonQuestionCount sampleJson = some r.questions.length :=
  ⟨rfl, model_validate_roundtrip sampleJson rfl⟩

end QuizAI
